import Mathlib

/-!
Shallow embedding of the sds011-rs driver (src/src/message.rs and
src/src/lib.rs) and proofs about its wire-protocol codec and its
device state machine.  Bytes are modelled as `Nat`, with `% 256`
made explicit wherever the Rust code relies on `u8` wrapping
arithmetic.  Fixed-size Rust arrays (`[u8; 10]` reply buffers and
`[u8; 19]` query buffers) are modelled as structures with one field
per byte, so that `data[i]` in the source corresponds to field `bi`.
Rust panics (`unimplemented!`, `Option::expect`) are modelled as
explicit `none` / error outcomes, so that every function stays total.
-/

namespace SDS011Spec

/-- Wrapping 8-bit sum: the fold with `u8::wrapping_add` used for both
reply and query checksums in `message.rs`. -/
def wrappingSum (l : List Nat) : Nat :=
  l.foldl (fun acc i => (acc + i) % 256) 0

/-- The value of `u16::from_le_bytes [a, b]`: first byte is least significant. -/
def u16FromLeBytes (a b : Nat) : Nat := a + 256 * b

/-- The value of `u16::from_be_bytes [a, b]`: first byte is most significant. -/
def u16FromBeBytes (a b : Nat) : Nat := 256 * a + b

/-- Mirrors `enum ParseError` in message.rs. -/
inductive ParseError where
  | BooleanField (v : Nat)
  | TimeField (v : Nat)
  | HeadTail
  | CommandID (v : Nat)
  | SubCommand (v : Nat)
  | Checksum (computed expected : Nat)
deriving DecidableEq, Repr

/-- A 10-byte reply frame, modelling the Rust `[u8; RECV_BUF_SIZE]`
with `RECV_BUF_SIZE = 10`; field `bi` is `data[i]`. -/
structure Reply where
  b0 : Nat
  b1 : Nat
  b2 : Nat
  b3 : Nat
  b4 : Nat
  b5 : Nat
  b6 : Nat
  b7 : Nat
  b8 : Nat
  b9 : Nat
deriving DecidableEq, Repr

/-- The slice `data[2..8]` of a reply, over which its checksum is computed. -/
def Reply.checksumSlice (data : Reply) : List Nat :=
  [data.b2, data.b3, data.b4, data.b5, data.b6, data.b7]

/-- Mirrors `struct Measurement` in message.rs. -/
structure Measurement where
  pm25 : Nat
  pm10 : Nat
deriving DecidableEq, Repr

/-- Mirrors `Measurement::from_bytes`, which uses `u16::from_le_bytes`
on `data[2..4]` and `data[4..6]`. -/
def Measurement.from_bytes (data : Reply) : Measurement :=
  { pm25 := u16FromLeBytes data.b2 data.b3
    pm10 := u16FromLeBytes data.b4 data.b5 }

/-- Mirrors `struct NewDeviceID(u16)` in message.rs. -/
structure NewDeviceID where
  id : Nat
deriving DecidableEq, Repr

/-- Mirrors `NewDeviceID::from_bytes`, big-endian on `data[6..8]`. -/
def NewDeviceID.from_bytes (data : Reply) : NewDeviceID :=
  { id := u16FromBeBytes data.b6 data.b7 }

/-- Mirrors `enum QueryMode` in message.rs (`repr(u8)`: Query = 0, Set = 1). -/
inductive QueryMode where
  | Query
  | Set
deriving DecidableEq, Repr

/-- The `as u8` cast of `QueryMode`. -/
def QueryMode.toNat : QueryMode → Nat
  | .Query => 0
  | .Set => 1

/-- Mirrors `TryFrom<u8> for QueryMode`. -/
def QueryMode.tryFrom (value : Nat) : Except ParseError QueryMode :=
  match value with
  | 0 => .ok .Query
  | 1 => .ok .Set
  | e => .error (.BooleanField e)

/-- Mirrors `enum ReportingMode` in message.rs (`repr(u8)`: Active = 0, Query = 1). -/
inductive ReportingMode where
  | Active
  | Query
deriving DecidableEq, Repr

/-- The `as u8` cast of `ReportingMode`. -/
def ReportingMode.toNat : ReportingMode → Nat
  | .Active => 0
  | .Query => 1

/-- Mirrors `TryFrom<u8> for ReportingMode`. -/
def ReportingMode.tryFrom (value : Nat) : Except ParseError ReportingMode :=
  match value with
  | 0 => .ok .Active
  | 1 => .ok .Query
  | e => .error (.BooleanField e)

/-- Mirrors `enum SleepMode` in message.rs (`repr(u8)`: Sleep = 0, Work = 1). -/
inductive SleepMode where
  | Sleep
  | Work
deriving DecidableEq, Repr

/-- The `as u8` cast of `SleepMode`. -/
def SleepMode.toNat : SleepMode → Nat
  | .Sleep => 0
  | .Work => 1

/-- Mirrors `TryFrom<u8> for SleepMode`. -/
def SleepMode.tryFrom (value : Nat) : Except ParseError SleepMode :=
  match value with
  | 0 => .ok .Sleep
  | 1 => .ok .Work
  | e => .error (.BooleanField e)

/-- Mirrors `struct Reporting` in message.rs. -/
structure Reporting where
  query : QueryMode
  reporting : ReportingMode
deriving DecidableEq, Repr

/-- Mirrors `Reporting::from_bytes`. -/
def Reporting.from_bytes (data : Reply) : Except ParseError Reporting :=
  match QueryMode.tryFrom data.b3 with
  | .error e => .error e
  | .ok mode =>
    match ReportingMode.tryFrom data.b4 with
    | .error e => .error e
    | .ok query => .ok { query := mode, reporting := query }

/-- Mirrors `Reporting::new_query`. -/
def Reporting.new_query : Reporting :=
  { query := .Query, reporting := .Active }

/-- Mirrors `Reporting::new_set`. -/
def Reporting.new_set (reporting : ReportingMode) : Reporting :=
  { query := .Set, reporting := reporting }

/-- Mirrors `Reporting::mode`. -/
def Reporting.mode (r : Reporting) : ReportingMode := r.reporting

/-- Mirrors `struct Sleep` in message.rs. -/
structure Sleep where
  query : QueryMode
  sleep : SleepMode
deriving DecidableEq, Repr

/-- Mirrors `Sleep::from_bytes`. -/
def Sleep.from_bytes (data : Reply) : Except ParseError Sleep :=
  match QueryMode.tryFrom data.b3 with
  | .error e => .error e
  | .ok mode =>
    match SleepMode.tryFrom data.b4 with
    | .error e => .error e
    | .ok work => .ok { query := mode, sleep := work }

/-- Mirrors `Sleep::new_query`. -/
def Sleep.new_query : Sleep :=
  { query := .Query, sleep := .Sleep }

/-- Mirrors `Sleep::new_set`. -/
def Sleep.new_set (sleep : SleepMode) : Sleep :=
  { query := .Set, sleep := sleep }

/-- Mirrors `Sleep::sleep_mode`. -/
def Sleep.sleep_mode (s : Sleep) : SleepMode := s.sleep

/-- Mirrors `struct WorkingPeriod` in message.rs. -/
structure WorkingPeriod where
  query : QueryMode
  minutes : Nat
deriving DecidableEq, Repr

/-- Mirrors `WorkingPeriod::from_bytes`: the `data[4]` time byte must be at most 30. -/
def WorkingPeriod.from_bytes (data : Reply) : Except ParseError WorkingPeriod :=
  match QueryMode.tryFrom data.b3 with
  | .error e => .error e
  | .ok mode =>
    let time := data.b4
    if time > 30 then .error (.TimeField time)
    else .ok { query := mode, minutes := time }

/-- Mirrors `WorkingPeriod::new_query`. -/
def WorkingPeriod.new_query : WorkingPeriod :=
  { query := .Query, minutes := 0 }

/-- Mirrors `WorkingPeriod::new_set`. -/
def WorkingPeriod.new_set (minutes : Nat) : WorkingPeriod :=
  { query := .Set, minutes := minutes }

/-- Mirrors `WorkingPeriod::period`. -/
def WorkingPeriod.period (w : WorkingPeriod) : Nat := w.minutes

/-- Mirrors `struct FirmwareVersion` in message.rs. -/
structure FirmwareVersion where
  year : Nat
  month : Nat
  day : Nat
deriving DecidableEq, Repr

/-- Mirrors `FirmwareVersion::from_bytes`. -/
def FirmwareVersion.from_bytes (data : Reply) : FirmwareVersion :=
  { year := data.b3, month := data.b4, day := data.b5 }

/-- Mirrors `enum Kind` in message.rs. -/
inductive Kind where
  | ReportingMode (r : Reporting)
  | Query (m : Option Measurement)
  | SetDeviceID (d : NewDeviceID)
  | Sleep (s : Sleep)
  | WorkingPeriod (w : WorkingPeriod)
  | FWVersion (f : Option FirmwareVersion)
deriving DecidableEq, Repr

/-- Mirrors `Kind::parse`: dispatch on the command byte `data[1]`, then
on the subcommand byte `data[2]` for the `0xC5` family. -/
def Kind.parse (data : Reply) : Except ParseError Kind :=
  match data.b1 with
  | 0xC0 => .ok (.Query (some (Measurement.from_bytes data)))
  | 0xC5 =>
    match data.b2 with
    | 2 =>
      match Reporting.from_bytes data with
      | .ok r => .ok (.ReportingMode r)
      | .error e => .error e
    | 5 => .ok (.SetDeviceID (NewDeviceID.from_bytes data))
    | 6 =>
      match Sleep.from_bytes data with
      | .ok s => .ok (.Sleep s)
      | .error e => .error e
    | 8 =>
      match WorkingPeriod.from_bytes data with
      | .ok w => .ok (.WorkingPeriod w)
      | .error e => .error e
    | 7 => .ok (.FWVersion (some (FirmwareVersion.from_bytes data)))
    | s => .error (.SubCommand s)
  | c => .error (.CommandID c)

/-- Mirrors `struct Message` in message.rs. -/
structure Message where
  kind : Kind
  sensor_id : Option Nat
deriving DecidableEq, Repr

/-- Mirrors `Message::new`. -/
def Message.new (kind : Kind) (target_sensor : Option Nat) : Message :=
  { kind := kind, sensor_id := target_sensor }

/-- Mirrors `Message::parse_reply`: checksum over `data[2..8]` first,
then `Kind::parse`, then the head/tail check with the set-sleep quirk
(`data[9]` may be `0xFF` for a set-mode sleep reply). -/
def Message.parse_reply (data : Reply) : Except ParseError Message :=
  let chksum := wrappingSum data.checksumSlice
  if chksum ≠ data.b8 then .error (.Checksum chksum data.b8)
  else
    match Kind.parse data with
    | .error e => .error e
    | .ok msg =>
      let sensor_id := u16FromBeBytes data.b6 data.b7
      if data.b0 ≠ 0xAA ∨ data.b9 ≠ 0xAB then
        match msg with
        | .Sleep s =>
          match s.query with
          | .Set =>
            if data.b9 ≠ 0xFF then .error .HeadTail
            else .ok { kind := .Sleep s, sensor_id := some sensor_id }
          | .Query => .ok { kind := .Sleep s, sensor_id := some sensor_id }
        | _ => .error .HeadTail
      else .ok { kind := msg, sensor_id := some sensor_id }

/-- A 19-byte query frame, modelling the Rust `[u8; SEND_BUF_SIZE]`
with `SEND_BUF_SIZE = 19`; field `bi` is `output[i]`. -/
structure QueryBuf where
  b0 : Nat
  b1 : Nat
  b2 : Nat
  b3 : Nat
  b4 : Nat
  b5 : Nat
  b6 : Nat
  b7 : Nat
  b8 : Nat
  b9 : Nat
  b10 : Nat
  b11 : Nat
  b12 : Nat
  b13 : Nat
  b14 : Nat
  b15 : Nat
  b16 : Nat
  b17 : Nat
  b18 : Nat
deriving DecidableEq, Repr

/-- The all-zero query buffer `[0u8; SEND_BUF_SIZE]`. -/
def zeroQuery : QueryBuf :=
  { b0 := 0, b1 := 0, b2 := 0, b3 := 0, b4 := 0, b5 := 0, b6 := 0
    b7 := 0, b8 := 0, b9 := 0, b10 := 0, b11 := 0, b12 := 0, b13 := 0
    b14 := 0, b15 := 0, b16 := 0, b17 := 0, b18 := 0 }

/-- The slice `output[2..17]` of a query, over which its checksum is computed. -/
def QueryBuf.checksumSlice (q : QueryBuf) : List Nat :=
  [q.b2, q.b3, q.b4, q.b5, q.b6, q.b7, q.b8, q.b9, q.b10, q.b11
   , q.b12, q.b13, q.b14, q.b15, q.b16]

/-- Mirrors `NewDeviceID::populate_query`.  The source calls
`unimplemented!` (a panic) when either big-endian byte of the new id is
`0xFF`; the panic is modelled as `none`. -/
def NewDeviceID.populate_query (d : NewDeviceID) (data : QueryBuf) : Option QueryBuf :=
  let bytes0 := d.id / 256 % 256
  let bytes1 := d.id % 256
  if bytes0 = 0xFF ∨ bytes1 = 0xFF then none
  else some { data with b13 := bytes0, b14 := bytes1 }

/-- Mirrors `Reporting::populate_query`. -/
def Reporting.populate_query (r : Reporting) (data : QueryBuf) : QueryBuf :=
  { data with b3 := r.query.toNat, b4 := r.reporting.toNat }

/-- Mirrors `Sleep::populate_query`. -/
def Sleep.populate_query (s : Sleep) (data : QueryBuf) : QueryBuf :=
  { data with b3 := s.query.toNat, b4 := s.sleep.toNat }

/-- Mirrors `WorkingPeriod::populate_query`. -/
def WorkingPeriod.populate_query (w : WorkingPeriod) (data : QueryBuf) : QueryBuf :=
  { data with b3 := w.query.toNat, b4 := w.minutes }

/-- Mirrors `Kind::populate_query`: the variant fills its payload bytes,
then `data[1] = 0xB4` and `data[2] = subcommand` are written.  `none`
propagates the modelled panic of `NewDeviceID::populate_query`. -/
def Kind.populate_query (k : Kind) (data : QueryBuf) : Option QueryBuf :=
  match k with
  | .ReportingMode r => some { r.populate_query data with b1 := 0xB4, b2 := 2 }
  | .Query _ => some { data with b1 := 0xB4, b2 := 4 }
  | .SetDeviceID d =>
    match d.populate_query data with
    | none => none
    | some data2 => some { data2 with b1 := 0xB4, b2 := 5 }
  | .Sleep s => some { s.populate_query data with b1 := 0xB4, b2 := 6 }
  | .WorkingPeriod w => some { w.populate_query data with b1 := 0xB4, b2 := 8 }
  | .FWVersion _ => some { data with b1 := 0xB4, b2 := 7 }

/-- Mirrors `Message::create_query`: head/tail bytes, payload
population, big-endian target id (broadcast `0xFFFF` when absent), and
the checksum over `output[2..17]`.  `none` models the panic reachable
through `Kind::SetDeviceID`. -/
def Message.create_query (m : Message) : Option QueryBuf :=
  let output := { zeroQuery with b0 := 0xAA, b18 := 0xAB }
  match m.kind.populate_query output with
  | none => none
  | some populated =>
    let targeted :=
      match m.sensor_id with
      | none => { populated with b15 := 0xFF, b16 := 0xFF }
      | some id => { populated with b15 := id / 256 % 256, b16 := id % 256 }
    some { targeted with b17 := wrappingSum targeted.checksumSlice }

/-!
Driver layer: shallow embedding of src/src/lib.rs.  The serial
transport is modelled as a scripted duplex port: reads pop entries from
a finite script, successful writes are recorded in order, and
`delay_ms` is a no-op (timing is outside the embedding).  Generic
transport errors `E` are dropped from `ReadError`/`WriteError`.
-/

/-- Outcome of one `serial.read(&mut buf)` call on the scripted
transport: either the call fails, or it reports `n` bytes read with the
(zero-initialised, then filled) 10-byte buffer contents `buf`. -/
inductive ReadResult where
  | ok (n : Nat) (buf : Reply)
  | err
deriving DecidableEq, Repr

/-- Mirrors `enum SDS011Error<E>` in lib.rs, with the transport error
payload dropped.  The extra `Panicked` value models a Rust panic
(`Option::expect`, `unimplemented!`) so every modelled method is total;
it corresponds to no `SDS011Error` variant of the source. -/
inductive SDS011Error where
  | ParseError (e : ParseError)
  | ReadError
  | WriteError
  | ShortRead
  | ShortWrite
  | UnexpectedType
  | OperationFailed
  | Invalid
  | Panicked
deriving DecidableEq, Repr

/-- The scripted serial transport: pending read outcomes in order, and
the query frames successfully written so far.  Writes always succeed
completely in this model (write failures are not exercised by any
claim). -/
structure Serial where
  script : List ReadResult
  writes : List QueryBuf
deriving DecidableEq, Repr

/-- Mirrors `struct SDS011<RW, S>` in lib.rs.  The phase tag `S` is a
phantom type in the source; here the phase discipline is tracked by
which operations are applied.  The two `Config` delays are carried for
fidelity but have no behavioural effect (`delay_ms` is a no-op). -/
structure SDS011 where
  serial : Serial
  sleep_delay : Nat
  measure_delay : Nat
  sensor_id : Option Nat
  firmware : Option FirmwareVersion
deriving DecidableEq, Repr

/-- Mirrors `SDS011::new` (with `Config` fields inlined): no I/O, no
id, no firmware. -/
def SDS011.new (serial : Serial) (sleep_delay measure_delay : Nat) : SDS011 :=
  { serial := serial, sleep_delay := sleep_delay, measure_delay := measure_delay
    sensor_id := none, firmware := none }

/-- Mirrors `SDS011::get_reply`: read into a 10-byte buffer; a full
read is parsed, a short read is `ShortRead`, a failed read is
`ReadError`.  Reading from an exhausted script is a `ReadError`. -/
def SDS011.get_reply (s : SDS011) : Except SDS011Error Message × SDS011 :=
  match s.serial.script with
  | [] => (.error .ReadError, s)
  | r :: rest =>
    let s1 := { s with serial := { s.serial with script := rest } }
    match r with
    | .err => (.error .ReadError, s1)
    | .ok n buf =>
      if n = 10 then
        match Message.parse_reply buf with
        | .ok m => (.ok m, s1)
        | .error e => (.error (.ParseError e), s1)
      else (.error .ShortRead, s1)

/-- Mirrors `SDS011::send_message`: build a query for the driver's
current `sensor_id` target and write it.  The modelled transport
accepts the full 19-byte write; a `create_query` panic surfaces as
`Panicked`. -/
def SDS011.send_message (s : SDS011) (kind : Kind) : Except SDS011Error Unit × SDS011 :=
  match Message.create_query (Message.new kind s.sensor_id) with
  | none => (.error .Panicked, s)
  | some frame =>
    (.ok (), { s with serial := { s.serial with writes := s.serial.writes ++ [frame] } })

/-- Mirrors `SDS011::read_sensor`: optionally send a measurement query,
then expect a Measurement reply.  The source's `data.expect(..)` is
modelled as `Panicked` when the payload is absent. -/
def SDS011.read_sensor (s : SDS011) (query : Bool) : Except SDS011Error Measurement × SDS011 :=
  match (if query then s.send_message (.Query none) else (.ok (), s)) with
  | (.error e, s1) => (.error e, s1)
  | (.ok _, s1) =>
    match s1.get_reply with
    | (.error e, s2) => (.error e, s2)
    | (.ok m, s2) =>
      match m.kind with
      | .Query data =>
        match data with
        | some meas => (.ok meas, s2)
        | none => (.error .Panicked, s2)
      | _ => (.error .UnexpectedType, s2)

/-- Mirrors `SDS011::get_firmware`: send a firmware query, expect a
FWVersion reply, and also learn the device id from the reply.  Both
`expect` calls of the source are modelled as `Panicked`. -/
def SDS011.get_firmware (s : SDS011) : Except SDS011Error (Nat × FirmwareVersion) × SDS011 :=
  match s.send_message (.FWVersion none) with
  | (.error e, s1) => (.error e, s1)
  | (.ok _, s1) =>
    match s1.get_reply with
    | (.error e, s2) => (.error e, s2)
    | (.ok reply, s2) =>
      match reply.sensor_id with
      | none => (.error .Panicked, s2)
      | some id =>
        match reply.kind with
        | .FWVersion data =>
          match data with
          | some fw => (.ok (id, fw), s2)
          | none => (.error .Panicked, s2)
        | _ => (.error .UnexpectedType, s2)

/-- Mirrors `SDS011::set_runmode_query`: send a set-Query reporting
command and require the reply to confirm Query mode. -/
def SDS011.set_runmode_query (s : SDS011) : Except SDS011Error Unit × SDS011 :=
  match s.send_message (.ReportingMode (Reporting.new_set .Query)) with
  | (.error e, s1) => (.error e, s1)
  | (.ok _, s1) =>
    match s1.get_reply with
    | (.error e, s2) => (.error e, s2)
    | (.ok m, s2) =>
      match m.kind with
      | .ReportingMode r =>
        match r.mode with
        | .Query => (.ok (), s2)
        | .Active => (.error .OperationFailed, s2)
      | _ => (.error .UnexpectedType, s2)

/-- Mirrors `SDS011::set_runmode_active`: send a set-Active reporting
command and require the reply to confirm Active mode. -/
def SDS011.set_runmode_active (s : SDS011) : Except SDS011Error Unit × SDS011 :=
  match s.send_message (.ReportingMode (Reporting.new_set .Active)) with
  | (.error e, s1) => (.error e, s1)
  | (.ok _, s1) =>
    match s1.get_reply with
    | (.error e, s2) => (.error e, s2)
    | (.ok m, s2) =>
      match m.kind with
      | .ReportingMode r =>
        match r.mode with
        | .Active => (.ok (), s2)
        | .Query => (.error .OperationFailed, s2)
      | _ => (.error .UnexpectedType, s2)

/-- Mirrors `SDS011::set_period`: send a set working-period command and
require the reply to confirm the same minute count. -/
def SDS011.set_period (s : SDS011) (minutes : Nat) : Except SDS011Error Unit × SDS011 :=
  match s.send_message (.WorkingPeriod (WorkingPeriod.new_set minutes)) with
  | (.error e, s1) => (.error e, s1)
  | (.ok _, s1) =>
    match s1.get_reply with
    | (.error e, s2) => (.error e, s2)
    | (.ok m, s2) =>
      match m.kind with
      | .WorkingPeriod data =>
        if data.period = minutes then (.ok (), s2)
        else (.error .OperationFailed, s2)
      | _ => (.error .UnexpectedType, s2)

/-- Mirrors `SDS011::sleep`: send a set-Sleep command and require the
reply to confirm Sleep mode. -/
def SDS011.sleep (s : SDS011) : Except SDS011Error Unit × SDS011 :=
  match s.send_message (.Sleep (Sleep.new_set .Sleep)) with
  | (.error e, s1) => (.error e, s1)
  | (.ok _, s1) =>
    match s1.get_reply with
    | (.error e, s2) => (.error e, s2)
    | (.ok m, s2) =>
      match m.kind with
      | .Sleep sl =>
        match sl.sleep_mode with
        | .Sleep => (.ok (), s2)
        | .Work => (.error .OperationFailed, s2)
      | _ => (.error .UnexpectedType, s2)

/-- Mirrors `SDS011::wake`: send a set-Work command and require the
reply to confirm Work mode. -/
def SDS011.wake (s : SDS011) : Except SDS011Error Unit × SDS011 :=
  match s.send_message (.Sleep (Sleep.new_set .Work)) with
  | (.error e, s1) => (.error e, s1)
  | (.ok _, s1) =>
    match s1.get_reply with
    | (.error e, s2) => (.error e, s2)
    | (.ok m, s2) =>
      match m.kind with
      | .Sleep sl =>
        match sl.sleep_mode with
        | .Work => (.ok (), s2)
        | .Sleep => (.error .OperationFailed, s2)
      | _ => (.error .UnexpectedType, s2)

/-- Mirrors `SDS011::<RW, Uninitialized>::init`: settle delay (no-op),
then wake, set reporting mode to query, firmware query (learning the
device id), sleep.  On success the returned Polling driver carries the
learned id and firmware.  The second component is the threaded driver
state, kept so the written frames stay observable on the error path. -/
def SDS011.init (s : SDS011) : Except SDS011Error SDS011 × SDS011 :=
  match s.wake with
  | (.error e, s1) => (.error e, s1)
  | (.ok _, s1) =>
    match s1.set_runmode_query with
    | (.error e, s2) => (.error e, s2)
    | (.ok _, s2) =>
      match s2.get_firmware with
      | (.error e, s3) => (.error e, s3)
      | (.ok (id, fw), s3) =>
        match s3.sleep with
        | (.error e, s4) => (.error e, s4)
        | (.ok _, s4) =>
          (.ok { s4 with sensor_id := some id, firmware := some fw }, s4)

/-- Mirrors `SDS011::<RW, Polling>::measure`: settle delay (no-op),
wake, discard one stale measurement, spin-up delay (no-op), real
measurement, sleep. -/
def SDS011.measure (s : SDS011) : Except SDS011Error Measurement × SDS011 :=
  match s.wake with
  | (.error e, s1) => (.error e, s1)
  | (.ok _, s1) =>
    match s1.read_sensor true with
    | (.error e, s2) => (.error e, s2)
    | (.ok _, s2) =>
      match s2.read_sensor true with
      | (.error e, s3) => (.error e, s3)
      | (.ok res, s3) =>
        match s3.sleep with
        | (.error e, s4) => (.error e, s4)
        | (.ok _, s4) => (.ok res, s4)

/-- Mirrors `SDS011::<RW, Periodic>::measure` (named apart because Lean
has no phase-indexed overloading): wait for the next pushed
measurement frame, with no wake/sleep management. -/
def SDS011.measure_periodic (s : SDS011) : Except SDS011Error Measurement × SDS011 :=
  s.read_sensor false

/-- Mirrors `SDS011::<RW, Polling>::make_periodic`: reject `minutes >
30` before any I/O, else wake, set the period, set Active reporting
mode. -/
def SDS011.make_periodic (s : SDS011) (minutes : Nat) : Except SDS011Error SDS011 × SDS011 :=
  if minutes > 30 then (.error .Invalid, s)
  else
    match s.wake with
    | (.error e, s1) => (.error e, s1)
    | (.ok _, s1) =>
      match s1.set_period minutes with
      | (.error e, s2) => (.error e, s2)
      | (.ok _, s2) =>
        match s2.set_runmode_active with
        | (.error e, s3) => (.error e, s3)
        | (.ok _, s3) => (.ok s3, s3)

/-- The broadcast wake query frame (set sleep-mode Work), as built by
`create_query` for `Sleep::new_set(Work)` with no target id. -/
def wakeFrame : QueryBuf :=
  ⟨0xAA, 0xB4, 6, 1, 1, 0, 0, 0, 0, 0, 0, 0, 0, 0, 0, 0xFF, 0xFF, 6, 0xAB⟩

/-- The broadcast set-reporting-mode-Query frame. -/
def setQueryFrame : QueryBuf :=
  ⟨0xAA, 0xB4, 2, 1, 1, 0, 0, 0, 0, 0, 0, 0, 0, 0, 0, 0xFF, 0xFF, 2, 0xAB⟩

/-- The broadcast firmware query frame. -/
def fwQueryFrame : QueryBuf :=
  ⟨0xAA, 0xB4, 7, 0, 0, 0, 0, 0, 0, 0, 0, 0, 0, 0, 0, 0xFF, 0xFF, 5, 0xAB⟩

/-- The broadcast sleep query frame (set sleep-mode Sleep). -/
def sleepFrame : QueryBuf :=
  ⟨0xAA, 0xB4, 6, 1, 0, 0, 0, 0, 0, 0, 0, 0, 0, 0, 0, 0xFF, 0xFF, 5, 0xAB⟩

/-- A query frame addressed to all devices: broadcast id `0xFFFF` in
bytes 15..17. -/
def isBroadcast (f : QueryBuf) : Prop :=
  f.b15 = 0xFF ∧ f.b16 = 0xFF

/-- A wake confirmation reply (Sleep, set flag, Work) from device 0xA160. -/
def wakeReply : Reply :=
  ⟨0xAA, 0xC5, 0x06, 0x01, 0x01, 0x00, 0xA1, 0x60, 0x09, 0xAB⟩

/-- A reporting-mode confirmation reply (set flag, Query mode) from device 0xA160. -/
def repQueryReply : Reply :=
  ⟨0xAA, 0xC5, 0x02, 0x01, 0x01, 0x00, 0xA1, 0x60, 0x05, 0xAB⟩

/-- A firmware version reply (2015-07-10) from device 0xA160. -/
def fwReply : Reply :=
  ⟨0xAA, 0xC5, 0x07, 0x0F, 0x07, 0x0A, 0xA1, 0x60, 0x28, 0xAB⟩

/-- A sleep confirmation reply (Sleep, set flag, Sleep) from device 0xA160. -/
def sleepReply : Reply :=
  ⟨0xAA, 0xC5, 0x06, 0x01, 0x00, 0x00, 0xA1, 0x60, 0x08, 0xAB⟩

/-- The scripted replies for one successful init exchange. -/
def initScriptOk : List ReadResult :=
  [.ok 10 wakeReply, .ok 10 repQueryReply, .ok 10 fwReply, .ok 10 sleepReply]

/-- True exactly on the Sleep variant of `Kind`. -/
def Kind.isSleep : Kind → Bool
  | .Sleep _ => true
  | _ => false

/-- True exactly on the ReportingMode variant of `Kind`. -/
def Kind.isReportingMode : Kind → Bool
  | .ReportingMode _ => true
  | _ => false

/-- True exactly on the FWVersion variant of `Kind`. -/
def Kind.isFWVersion : Kind → Bool
  | .FWVersion _ => true
  | _ => false

/-- A successful `parse_reply` always yields the kind produced by
`Kind::parse` together with the big-endian device id of bytes 6..8. -/
theorem parse_reply_ok_shape (data : Reply) (m : Message)
    (h : Message.parse_reply data = .ok m) :
    Kind.parse data = .ok m.kind ∧
      m.sensor_id = some (u16FromBeBytes data.b6 data.b7) := by
  unfold Message.parse_reply at h
  dsimp only [] at h
  by_cases hc : wrappingSum data.checksumSlice = data.b8
  · rw [if_neg (not_not_intro hc)] at h
    cases hp : Kind.parse data with
    | error e => rw [hp] at h; exact absurd h (by simp)
    | ok msg =>
      rw [hp] at h
      dsimp only [] at h
      by_cases hht : data.b0 ≠ 0xAA ∨ data.b9 ≠ 0xAB
      · rw [if_pos hht] at h
        cases msg with
        | Sleep s =>
          dsimp only [] at h
          cases hq : s.query with
          | Set =>
            rw [hq] at h
            by_cases hff : data.b9 ≠ 0xFF
            · rw [if_pos hff] at h; exact absurd h (by simp)
            · rw [if_neg hff] at h
              obtain rfl := (Except.ok.injEq ..).mp h
              exact ⟨rfl, rfl⟩
          | Query =>
            rw [hq] at h
            obtain rfl := (Except.ok.injEq ..).mp h
            exact ⟨rfl, rfl⟩
        | ReportingMode r => exact absurd h (by simp)
        | Query o => exact absurd h (by simp)
        | SetDeviceID d => exact absurd h (by simp)
        | WorkingPeriod w => exact absurd h (by simp)
        | FWVersion f => exact absurd h (by simp)
      · rw [if_neg hht] at h
        obtain rfl := (Except.ok.injEq ..).mp h
        exact ⟨rfl, rfl⟩
  · rw [if_pos hc] at h
    exact absurd h (by simp)

/-- A Query kind out of `Kind::parse` always carries the little-endian
measurement decoded by `Measurement::from_bytes`. -/
theorem kind_parse_query_eq (data : Reply) (om : Option Measurement)
    (h : Kind.parse data = .ok (.Query om)) :
    om = some (Measurement.from_bytes data) := by
  unfold Kind.parse at h
  split at h
  · simp at h; exact h.symm
  · split at h <;> first
      | (split at h <;> simp_all)
      | simp_all
  · simp_all

/-- A FWVersion kind out of `Kind::parse` always carries a payload. -/
theorem kind_parse_fw_eq (data : Reply) (od : Option FirmwareVersion)
    (h : Kind.parse data = .ok (.FWVersion od)) :
    od = some (FirmwareVersion.from_bytes data) := by
  unfold Kind.parse at h
  split at h
  · simp_all
  · split at h <;> first
      | (split at h <;> simp_all)
      | simp_all
  · simp_all

/-!
Sanity checks: the embedding reproduces the unit tests of message.rs
(taken from the sensor's control protocol documentation), pinning the
Lean definitions to the observable behaviour of the Rust source.
-/
example :
    Message.parse_reply ⟨0xAA, 0xC5, 0x02, 0x00, 0x00, 0x00, 0xA1, 0x60, 0x03, 0xAB⟩ =
      .ok { kind := .ReportingMode { query := .Query, reporting := .Active }
            sensor_id := some 0xA160 } := by rfl

example :
    Message.create_query (Message.new (.Query none) none) =
      some ⟨0xAA, 0xB4, 0x04, 0, 0, 0, 0, 0, 0, 0, 0, 0, 0, 0, 0, 0xFF, 0xFF, 0x02, 0xAB⟩ := by
  decide

example :
    Message.parse_reply ⟨0xAA, 0xC0, 0xD4, 0x04, 0x3A, 0x0A, 0xA1, 0x60, 0x1D, 0xAB⟩ =
      .ok { kind := .Query (some { pm25 := 1236, pm10 := 2618 }), sensor_id := some 0xA160 } := rfl

example :
    Message.parse_reply ⟨0xAA, 0xC5, 0x06, 0x01, 0x00, 0x00, 0xA1, 0x60, 0x08, 0xFF⟩ =
      .ok { kind := .Sleep { query := .Set, sleep := .Sleep }, sensor_id := some 0xA160 } := rfl

example :
    Message.parse_reply ⟨0xAA, 0xC5, 0x06, 0x00, 0x01, 0x00, 0xA1, 0x60, 0x08, 0xFF⟩ =
      .ok { kind := .Sleep { query := .Query, sleep := .Work }, sensor_id := some 0xA160 } := rfl

example :
    Message.create_query (Message.new (.SetDeviceID ⟨0xA001⟩) (some 0xA160)) =
      some ⟨0xAA, 0xB4, 0x05, 0, 0, 0, 0, 0, 0, 0, 0, 0, 0, 0xA0, 0x01, 0xA1, 0x60, 0xA7, 0xAB⟩ := by
  decide

example : Message.create_query (Message.new (.SetDeviceID ⟨0x01FF⟩) none) = none := by decide

example : Message.create_query (Message.new (.Sleep (Sleep.new_set .Work)) none) = some wakeFrame := rfl

example : Message.create_query (Message.new (.ReportingMode (Reporting.new_set .Query)) none) = some setQueryFrame := rfl

example : Message.create_query (Message.new (.FWVersion none) none) = some fwQueryFrame := rfl

example : Message.create_query (Message.new (.Sleep (Sleep.new_set .Sleep)) none) = some sleepFrame := rfl

/-- C8: the literal reply bytes `AA C0 D4 04 3A 0A A1 60 1D AB` decode
successfully to a Measurement with pm25 = 1236 and pm10 = 2618 and
device id 0xA160. -/
theorem c8_measurement_literal_decode :
    Message.parse_reply ⟨0xAA, 0xC0, 0xD4, 0x04, 0x3A, 0x0A, 0xA1, 0x60, 0x1D, 0xAB⟩ =
      .ok { kind := .Query (some { pm25 := 1236, pm10 := 2618 })
            sensor_id := some 0xA160 } := rfl

/-- C2: evaluation at the failing input.  The checksum-valid Sleep
reply with the query flag and tail byte 0xFF is accepted by
`parse_reply` (the quirk check of the source silently skips sleep
replies whose query flag is Query), whereas the claim and the spec
require this exact frame to be rejected with the head/tail error. -/
theorem c2_sleep_query_tail_ff_accepted :
    Message.parse_reply ⟨0xAA, 0xC5, 0x06, 0x00, 0x01, 0x00, 0xA1, 0x60, 0x08, 0xFF⟩ =
      .ok { kind := .Sleep { query := .Query, sleep := .Work }
            sensor_id := some 0xA160 } := rfl

/-- C1 counterexample: the all-zero 10-byte reply has a matching
checksum (both sides are 0) yet decoding fails with an unknown-command
error, so decoding does not succeed whenever the checksum matches: the
claimed equivalence is only a one-way implication. -/
theorem c1_checksum_iff_counterexample :
    wrappingSum (Reply.checksumSlice ⟨0, 0, 0, 0, 0, 0, 0, 0, 0, 0⟩) =
        Reply.b8 ⟨0, 0, 0, 0, 0, 0, 0, 0, 0, 0⟩ ∧
      Message.parse_reply ⟨0, 0, 0, 0, 0, 0, 0, 0, 0, 0⟩ = .error (.CommandID 0) :=
  ⟨rfl, rfl⟩

/-- C1 amended: decoding succeeds only if the unsigned 8-bit wrapping
sum of bytes 2..8 equals byte 8, and whenever that sum differs from
byte 8 the result is exactly `ChecksumError` carrying the computed
value and the expected value, in that order. -/
theorem c1_checksum_gate (data : Reply) :
    (∀ m, Message.parse_reply data = .ok m →
      wrappingSum data.checksumSlice = data.b8) ∧
    (wrappingSum data.checksumSlice ≠ data.b8 →
      Message.parse_reply data =
        .error (.Checksum (wrappingSum data.checksumSlice) data.b8)) := by
  constructor
  · intro m h
    by_contra hne
    unfold Message.parse_reply at h
    dsimp only [] at h
    rw [if_pos hne] at h
    exact absurd h (by simp)
  · intro hne
    unfold Message.parse_reply
    dsimp only []
    rw [if_pos hne]

/-- C1 witness: the checksum gate applied at a concrete mismatching
frame. -/
theorem c1_checksum_gate_witness :
    Message.parse_reply ⟨0xAA, 0xC0, 0, 0, 0, 0, 0, 0, 5, 0xAB⟩ =
      .error (.Checksum 0 5) :=
  (c1_checksum_gate ⟨0xAA, 0xC0, 0, 0, 0, 0, 0, 0, 5, 0xAB⟩).2 (by decide)

/-- C4 counterexample: the checksum-valid measurement reply with data
bytes `01 00 00 00` decodes to pm25 = 1, while the claimed big-endian
formula byte2 * 256 + byte3 gives 256: the measurement fields are
little-endian. -/
theorem c4_big_endian_counterexample :
    Message.parse_reply ⟨0xAA, 0xC0, 1, 0, 0, 0, 0, 0, 1, 0xAB⟩ =
        .ok { kind := .Query (some { pm25 := 1, pm10 := 0 }), sensor_id := some 0 } ∧
      (1 : Nat) ≠ 1 * 256 + 0 :=
  ⟨rfl, by decide⟩

/-- C4 amended: for every decoded Measurement reply the fields are
little-endian, pm25 = byte2 + byte3 * 256 and pm10 = byte4 +
byte5 * 256, while the device id in bytes 6..8 is read big-endian. -/
theorem c4_measurement_little_endian (data : Reply) (m : Message)
    (meas : Measurement)
    (hok : Message.parse_reply data = .ok m)
    (hkind : m.kind = .Query (some meas)) :
    meas.pm25 = data.b2 + data.b3 * 256 ∧
      meas.pm10 = data.b4 + data.b5 * 256 ∧
      m.sensor_id = some (data.b6 * 256 + data.b7) := by
  obtain ⟨hp, hid⟩ := parse_reply_ok_shape data m hok
  rw [hkind] at hp
  have hmeas := kind_parse_query_eq data (some meas) hp
  obtain rfl : Measurement.from_bytes data = meas := by
    simpa using hmeas.symm
  refine ⟨?_, ?_, ?_⟩
  · show u16FromLeBytes data.b2 data.b3 = _
    unfold u16FromLeBytes; ring
  · show u16FromLeBytes data.b4 data.b5 = _
    unfold u16FromLeBytes; ring
  · rw [hid]; unfold u16FromBeBytes; ring_nf

/-- C4 witness: the little-endian reading applied at the literal
measurement reply of the protocol documentation. -/
theorem c4_measurement_little_endian_witness :
    (1236 : Nat) = 0xD4 + 0x04 * 256 ∧
      (2618 : Nat) = 0x3A + 0x0A * 256 ∧
      some (0xA160 : Nat) = some (0xA1 * 256 + 0x60) :=
  c4_measurement_little_endian
    ⟨0xAA, 0xC0, 0xD4, 0x04, 0x3A, 0x0A, 0xA1, 0x60, 0x1D, 0xAB⟩
    (Message.new (.Query (some ⟨1236, 2618⟩)) (some 0xA160)) ⟨1236, 2618⟩ rfl rfl

/-- C3 counterexample: encoding a SetDeviceID query whose new id has
low byte 0xFF reaches the `unimplemented!` panic of the source,
modelled as `none`: encoding is not total over all 16-bit new ids. -/
theorem c3_encode_total_counterexample :
    Message.create_query (Message.new (.SetDeviceID ⟨0x01FF⟩) none) = none := rfl

/-- C3 amended: `create_query` returns a 19-byte query frame for every
Kind value and every target id option, except that a SetDeviceID whose
new id has 0xFF as either big-endian byte panics (`unimplemented!`),
modelled as `none`. -/
theorem c3_encode_total_amended (k : Kind) (target : Option Nat)
    (hk : ∀ d, k = .SetDeviceID d → d.id / 256 % 256 ≠ 0xFF ∧ d.id % 256 ≠ 0xFF) :
    ∃ f, Message.create_query (Message.new k target) = some f := by
  cases k with
  | SetDeviceID d =>
    obtain ⟨h1, h2⟩ := hk d rfl
    cases target <;>
      simp [Message.create_query, Message.new, Kind.populate_query,
        NewDeviceID.populate_query, h1, h2]
  | ReportingMode r => cases target <;> exact ⟨_, rfl⟩
  | Query o => cases target <;> exact ⟨_, rfl⟩
  | Sleep s => cases target <;> exact ⟨_, rfl⟩
  | WorkingPeriod w => cases target <;> exact ⟨_, rfl⟩
  | FWVersion f => cases target <;> exact ⟨_, rfl⟩

/-- C3 witness: totality applied at a concrete non-panicking kind. -/
theorem c3_encode_total_amended_witness :
    ∃ f, Message.create_query (Message.new (.SetDeviceID ⟨0xA001⟩) (some 0xA160)) = some f :=
  c3_encode_total_amended (.SetDeviceID ⟨0xA001⟩) (some 0xA160)
    (fun d hd => by cases hd; exact ⟨by decide, by decide⟩)

/-- C9: every query frame that `create_query` produces (the 19-byte
length is enforced by the `QueryBuf` type) has head byte 0xAA, command
byte 0xB4, tail byte 0xAB, and checksum byte 17 equal to the wrapping
8-bit sum of bytes 2..17. -/
theorem c9_query_frame_invariants (m : Message) (f : QueryBuf)
    (h : m.create_query = some f) :
    f.b0 = 0xAA ∧ f.b1 = 0xB4 ∧ f.b18 = 0xAB ∧
      f.b17 = wrappingSum f.checksumSlice := by
  obtain ⟨k, sid⟩ := m
  cases k with
  | SetDeviceID d =>
    by_cases hff : d.id / 256 % 256 = 0xFF ∨ d.id % 256 = 0xFF
    · exfalso
      have hnone : Message.create_query ⟨Kind.SetDeviceID d, sid⟩ = none := by
        cases sid <;>
          simp [Message.create_query, Kind.populate_query, NewDeviceID.populate_query, hff]
      rw [hnone] at h
      exact absurd h (by simp)
    · cases sid <;>
        (simp only [Message.create_query, Kind.populate_query, NewDeviceID.populate_query,
           if_neg hff, Option.some.injEq] at h
         subst h
         exact ⟨rfl, rfl, rfl, rfl⟩)
  | ReportingMode r =>
    cases sid <;> (injection h with hX; subst hX; exact ⟨rfl, rfl, rfl, rfl⟩)
  | Query o =>
    cases sid <;> (injection h with hX; subst hX; exact ⟨rfl, rfl, rfl, rfl⟩)
  | Sleep s =>
    cases sid <;> (injection h with hX; subst hX; exact ⟨rfl, rfl, rfl, rfl⟩)
  | WorkingPeriod w =>
    cases sid <;> (injection h with hX; subst hX; exact ⟨rfl, rfl, rfl, rfl⟩)
  | FWVersion fv =>
    cases sid <;> (injection h with hX; subst hX; exact ⟨rfl, rfl, rfl, rfl⟩)

/-- C9 witness: the invariants evaluated on the broadcast firmware
query frame. -/
theorem c9_query_frame_invariants_witness :
    QueryBuf.b0 fwQueryFrame = 0xAA ∧ QueryBuf.b1 fwQueryFrame = 0xB4 ∧
      QueryBuf.b18 fwQueryFrame = 0xAB ∧
      QueryBuf.b17 fwQueryFrame = wrappingSum fwQueryFrame.checksumSlice :=
  c9_query_frame_invariants (Message.new (.FWVersion none) none) fwQueryFrame rfl

/-- C6: WorkingPeriod boundary behaviour: a reply payload byte of 0 or
30 decodes (to that minute count), 31 yields the time-field error, and
`make_periodic` with minutes = 31 fails with the invalid-parameter
error leaving the driver state (so also the transport) untouched. -/
theorem c6_working_period_boundaries :
    (∀ data : Reply, (data.b3 = 0 ∨ data.b3 = 1) → (data.b4 = 0 ∨ data.b4 = 30) →
      ∃ w, WorkingPeriod.from_bytes data = .ok w ∧ w.minutes = data.b4) ∧
    (∀ data : Reply, (data.b3 = 0 ∨ data.b3 = 1) → data.b4 = 31 →
      WorkingPeriod.from_bytes data = .error (.TimeField 31)) ∧
    (∀ s : SDS011, s.make_periodic 31 = (.error .Invalid, s)) := by
  refine ⟨?_, ?_, fun s => rfl⟩
  · intro data h3 h4
    obtain ⟨qm, hq⟩ : ∃ qm, QueryMode.tryFrom data.b3 = .ok qm := by
      rcases h3 with h | h <;> rw [h] <;> exact ⟨_, rfl⟩
    refine ⟨⟨qm, data.b4⟩, ?_, rfl⟩
    unfold WorkingPeriod.from_bytes
    rw [hq]
    rcases h4 with h | h <;> rw [h] <;> rfl
  · intro data h3 h4
    obtain ⟨qm, hq⟩ : ∃ qm, QueryMode.tryFrom data.b3 = .ok qm := by
      rcases h3 with h | h <;> rw [h] <;> exact ⟨_, rfl⟩
    unfold WorkingPeriod.from_bytes
    rw [hq, h4]
    rfl

/-- C6 witness: the boundaries evaluated on concrete working-period
replies and a concrete driver. -/
theorem c6_working_period_boundaries_witness :
    (∃ w, WorkingPeriod.from_bytes ⟨0xAA, 0xC5, 0x08, 0, 30, 0, 0xA1, 0x60, 0x27, 0xAB⟩ =
        .ok w ∧ w.minutes = Reply.b4 ⟨0xAA, 0xC5, 0x08, 0, 30, 0, 0xA1, 0x60, 0x27, 0xAB⟩) ∧
      WorkingPeriod.from_bytes ⟨0xAA, 0xC5, 0x08, 0, 31, 0, 0xA1, 0x60, 0x28, 0xAB⟩ =
        .error (.TimeField 31) ∧
      (SDS011.new ⟨[], []⟩ 500 30000).make_periodic 31 =
        (.error .Invalid, SDS011.new ⟨[], []⟩ 500 30000) :=
  ⟨c6_working_period_boundaries.1 _ (.inl rfl) (.inr rfl),
   c6_working_period_boundaries.2.1 _ (.inl rfl) rfl,
   c6_working_period_boundaries.2.2 _⟩

/-- `get_reply` never produces the modelled panic outcome. -/
theorem get_reply_no_panic (s : SDS011) :
    s.get_reply.1 ≠ .error .Panicked := by
  unfold SDS011.get_reply
  rcases hs : s.serial.script with _ | ⟨r, rest⟩
  · simp
  · cases r with
    | err => simp
    | ok n buf =>
      dsimp only []
      by_cases hn : n = 10
      · rw [if_pos hn]
        cases hp : Message.parse_reply buf with
        | ok m => simp
        | error e => simp
      · rw [if_neg hn]; simp

/-- Any message returned by `get_reply` was produced by `parse_reply`
on some 10-byte buffer. -/
theorem get_reply_ok_parsed (s : SDS011) (m : Message) (s2 : SDS011)
    (h : s.get_reply = (.ok m, s2)) :
    ∃ data, Message.parse_reply data = .ok m := by
  unfold SDS011.get_reply at h
  rcases hs : s.serial.script with _ | ⟨r, rest⟩ <;> rw [hs] at h
  · exact absurd h (by simp)
  · cases r with
    | err => exact absurd h (by simp)
    | ok n buf =>
      dsimp only [] at h
      by_cases hn : n = 10
      · rw [if_pos hn] at h
        cases hp : Message.parse_reply buf with
        | ok m2 =>
          rw [hp] at h
          have hm : m2 = m := by
            have := congrArg Prod.fst h
            simpa using this
          exact ⟨buf, by rw [hp, hm]⟩
        | error e => rw [hp] at h; exact absurd h (by simp)
      · rw [if_neg hn] at h; exact absurd h (by simp)

/-- Sending a measurement query never fails in the model: the
broadcast-or-targeted frame is appended to the write log. -/
theorem send_message_query_ok (s : SDS011) :
    ∃ f, s.send_message (.Query none) =
      (.ok (), { s with serial := { s.serial with writes := s.serial.writes ++ [f] } }) := by
  unfold SDS011.send_message
  rcases hs : s.sensor_id with _ | id <;> exact ⟨_, rfl⟩

/-- Sending a firmware query never fails in the model. -/
theorem send_message_fw_ok (s : SDS011) :
    ∃ f, s.send_message (.FWVersion none) =
      (.ok (), { s with serial := { s.serial with writes := s.serial.writes ++ [f] } }) := by
  unfold SDS011.send_message
  rcases hs : s.sensor_id with _ | id <;> exact ⟨_, rfl⟩

/-- Every successfully parsed reply has a sensor id and, for the Query
and FWVersion kinds, a payload. -/
theorem parse_ok_payloads (data : Reply) (m : Message)
    (h : Message.parse_reply data = .ok m) :
    (∃ i, m.sensor_id = some i) ∧
      (∀ om, m.kind = .Query om → om.isSome) ∧
      (∀ od, m.kind = .FWVersion od → od.isSome) := by
  obtain ⟨hp, hid⟩ := parse_reply_ok_shape data m h
  refine ⟨⟨_, hid⟩, ?_, ?_⟩
  · intro om hk
    rw [hk] at hp
    rw [kind_parse_query_eq data om hp]
    rfl
  · intro od hk
    rw [hk] at hp
    rw [kind_parse_fw_eq data od hp]
    rfl

/-- `read_sensor` without a query never reaches the modelled panic. -/
theorem read_sensor_false_no_panic (s : SDS011) :
    (s.read_sensor false).1 ≠ .error .Panicked := by
  unfold SDS011.read_sensor
  rw [if_neg Bool.false_ne_true]
  dsimp only []
  rcases hg : s.get_reply with ⟨res, s2⟩
  have hnp := get_reply_no_panic s
  rw [hg] at hnp
  cases res with
  | error e => simpa using hnp
  | ok m =>
    obtain ⟨data, hp⟩ := get_reply_ok_parsed s m s2 hg
    obtain ⟨_, hqr, _⟩ := parse_ok_payloads data m hp
    dsimp only []
    cases hk : m.kind with
    | Query om =>
      cases om with
      | none => exact absurd (hqr none hk) (by simp)
      | some meas => simp
    | ReportingMode r => simp
    | SetDeviceID d => simp
    | Sleep sl => simp
    | WorkingPeriod w => simp
    | FWVersion fv => simp

/-- `read_sensor` never reaches the modelled panic, with or without a
query. -/
theorem read_sensor_no_panic (s : SDS011) (q : Bool) :
    (s.read_sensor q).1 ≠ .error .Panicked := by
  cases q with
  | false => exact read_sensor_false_no_panic s
  | true =>
    obtain ⟨f, hsend⟩ := send_message_query_ok s
    unfold SDS011.read_sensor
    rw [if_pos rfl, hsend]
    exact read_sensor_false_no_panic
      { s with serial := { s.serial with writes := s.serial.writes ++ [f] } }

/-- `get_firmware` never reaches the modelled panic. -/
theorem get_firmware_no_panic (s : SDS011) :
    s.get_firmware.1 ≠ .error .Panicked := by
  unfold SDS011.get_firmware
  obtain ⟨f, hsend⟩ := send_message_fw_ok s
  rw [hsend]
  dsimp only []
  rcases hg : SDS011.get_reply
      { s with serial := { s.serial with writes := s.serial.writes ++ [f] } } with ⟨res, s2⟩
  have hnp := get_reply_no_panic
    { s with serial := { s.serial with writes := s.serial.writes ++ [f] } }
  rw [hg] at hnp
  cases res with
  | error e => simpa using hnp
  | ok m =>
    obtain ⟨data, hp⟩ := get_reply_ok_parsed _ m s2 hg
    obtain ⟨⟨i, hid⟩, _, hfw⟩ := parse_ok_payloads data m hp
    dsimp only []
    rw [hid]
    dsimp only []
    cases hk : m.kind with
    | FWVersion od =>
      cases od with
      | none => exact absurd (hfw none hk) (by simp)
      | some fw => simp
    | ReportingMode r => simp
    | SetDeviceID d => simp
    | Sleep sl => simp
    | WorkingPeriod w => simp
    | Query om => simp

/-- C10: every reply `parse_reply` accepts carries a sensor id, its
Query and FWVersion kinds always carry a payload, and consequently the
expect calls of `read_sensor` and `get_firmware` (modelled as the
`Panicked` outcome) are unreachable for every driver state. -/
theorem c10_no_panic_on_decoded_replies :
    (∀ data m, Message.parse_reply data = .ok m →
      (∃ i, m.sensor_id = some i) ∧
        (∀ om, m.kind = .Query om → om.isSome) ∧
        (∀ od, m.kind = .FWVersion od → od.isSome)) ∧
    (∀ (s : SDS011) (q : Bool), (s.read_sensor q).1 ≠ .error .Panicked) ∧
    (∀ s : SDS011, s.get_firmware.1 ≠ .error .Panicked) :=
  ⟨parse_ok_payloads, read_sensor_no_panic, get_firmware_no_panic⟩

/-- C10 witness: the guarantees applied at the literal measurement
reply and a concrete scripted driver. -/
theorem c10_no_panic_on_decoded_replies_witness :
    (∃ i, (Message.new (.Query (some ⟨1236, 2618⟩)) (some 0xA160)).sensor_id = some i) ∧
      ((SDS011.new ⟨[], []⟩ 500 30000).read_sensor true).1 ≠ .error .Panicked :=
  ⟨(c10_no_panic_on_decoded_replies.1
      ⟨0xAA, 0xC0, 0xD4, 0x04, 0x3A, 0x0A, 0xA1, 0x60, 0x1D, 0xAB⟩
      (Message.new (.Query (some ⟨1236, 2618⟩)) (some 0xA160)) rfl).1,
   c10_no_panic_on_decoded_replies.2.1 (SDS011.new ⟨[], []⟩ 500 30000) true⟩

/-- With no learned id and a full scripted read whose reply confirms
Work mode, `wake` succeeds, consuming one script entry and writing the
broadcast wake frame. -/
theorem wake_step_ok (s : SDS011) (h : s.sensor_id = none)
    (r : Reply) (rest : List ReadResult)
    (hs : s.serial.script = .ok 10 r :: rest)
    (q : QueryMode) (sid : Option Nat)
    (hr : Message.parse_reply r = .ok ⟨.Sleep ⟨q, .Work⟩, sid⟩) :
    s.wake = (.ok (), { s with serial := ⟨rest, s.serial.writes ++ [wakeFrame]⟩ }) := by
  unfold SDS011.wake SDS011.send_message SDS011.get_reply
  rw [h]
  have hcq : Message.create_query (Message.new (.Sleep (Sleep.new_set .Work)) none) =
      some wakeFrame := rfl
  rw [hcq]
  dsimp only []
  rw [hs]
  dsimp only []
  rw [if_pos rfl, hr]
  rfl

/-- With a full scripted read whose reply is a Sleep confirming Sleep
mode, `wake` fails with OperationFailed after writing the wake frame. -/
theorem wake_step_opfail (s : SDS011) (h : s.sensor_id = none)
    (r : Reply) (rest : List ReadResult)
    (hs : s.serial.script = .ok 10 r :: rest)
    (q : QueryMode) (sid : Option Nat)
    (hr : Message.parse_reply r = .ok ⟨.Sleep ⟨q, .Sleep⟩, sid⟩) :
    s.wake = (.error .OperationFailed,
      { s with serial := ⟨rest, s.serial.writes ++ [wakeFrame]⟩ }) := by
  unfold SDS011.wake SDS011.send_message SDS011.get_reply
  rw [h]
  have hcq : Message.create_query (Message.new (.Sleep (Sleep.new_set .Work)) none) =
      some wakeFrame := rfl
  rw [hcq]
  dsimp only []
  rw [hs]
  dsimp only []
  rw [if_pos rfl, hr]
  rfl

/-- With a full scripted read whose reply decodes to a non-Sleep kind,
`wake` fails with UnexpectedType after writing the wake frame. -/
theorem wake_step_unexpected (s : SDS011) (h : s.sensor_id = none)
    (r : Reply) (rest : List ReadResult)
    (hs : s.serial.script = .ok 10 r :: rest)
    (k : Kind) (sid : Option Nat)
    (hk : k.isSleep = false)
    (hr : Message.parse_reply r = .ok ⟨k, sid⟩) :
    s.wake = (.error .UnexpectedType,
      { s with serial := ⟨rest, s.serial.writes ++ [wakeFrame]⟩ }) := by
  unfold SDS011.wake SDS011.send_message SDS011.get_reply
  rw [h]
  have hcq : Message.create_query (Message.new (.Sleep (Sleep.new_set .Work)) none) =
      some wakeFrame := rfl
  rw [hcq]
  dsimp only []
  rw [hs]
  dsimp only []
  rw [if_pos rfl, hr]
  cases k <;> simp_all [Kind.isSleep]

/-- With no learned id and a full scripted read whose reply confirms
Query reporting mode, `set_runmode_query` succeeds, writing the
broadcast set-reporting frame. -/
theorem set_runmode_query_step_ok (s : SDS011) (h : s.sensor_id = none)
    (r : Reply) (rest : List ReadResult)
    (hs : s.serial.script = .ok 10 r :: rest)
    (q : QueryMode) (sid : Option Nat)
    (hr : Message.parse_reply r = .ok ⟨.ReportingMode ⟨q, .Query⟩, sid⟩) :
    s.set_runmode_query =
      (.ok (), { s with serial := ⟨rest, s.serial.writes ++ [setQueryFrame]⟩ }) := by
  unfold SDS011.set_runmode_query SDS011.send_message SDS011.get_reply
  rw [h]
  have hcq : Message.create_query
      (Message.new (.ReportingMode (Reporting.new_set .Query)) none) = some setQueryFrame := rfl
  rw [hcq]
  dsimp only []
  rw [hs]
  dsimp only []
  rw [if_pos rfl, hr]
  rfl

/-- With a full scripted read whose reply is a ReportingMode confirming
Active, `set_runmode_query` fails with OperationFailed. -/
theorem set_runmode_query_step_opfail (s : SDS011) (h : s.sensor_id = none)
    (r : Reply) (rest : List ReadResult)
    (hs : s.serial.script = .ok 10 r :: rest)
    (q : QueryMode) (sid : Option Nat)
    (hr : Message.parse_reply r = .ok ⟨.ReportingMode ⟨q, .Active⟩, sid⟩) :
    s.set_runmode_query = (.error .OperationFailed,
      { s with serial := ⟨rest, s.serial.writes ++ [setQueryFrame]⟩ }) := by
  unfold SDS011.set_runmode_query SDS011.send_message SDS011.get_reply
  rw [h]
  have hcq : Message.create_query
      (Message.new (.ReportingMode (Reporting.new_set .Query)) none) = some setQueryFrame := rfl
  rw [hcq]
  dsimp only []
  rw [hs]
  dsimp only []
  rw [if_pos rfl, hr]
  rfl

/-- With a full scripted read whose reply decodes to a non-ReportingMode
kind, `set_runmode_query` fails with UnexpectedType. -/
theorem set_runmode_query_step_unexpected (s : SDS011) (h : s.sensor_id = none)
    (r : Reply) (rest : List ReadResult)
    (hs : s.serial.script = .ok 10 r :: rest)
    (k : Kind) (sid : Option Nat)
    (hk : k.isReportingMode = false)
    (hr : Message.parse_reply r = .ok ⟨k, sid⟩) :
    s.set_runmode_query = (.error .UnexpectedType,
      { s with serial := ⟨rest, s.serial.writes ++ [setQueryFrame]⟩ }) := by
  unfold SDS011.set_runmode_query SDS011.send_message SDS011.get_reply
  rw [h]
  have hcq : Message.create_query
      (Message.new (.ReportingMode (Reporting.new_set .Query)) none) = some setQueryFrame := rfl
  rw [hcq]
  dsimp only []
  rw [hs]
  dsimp only []
  rw [if_pos rfl, hr]
  cases k <;> simp_all [Kind.isReportingMode]

/-- With no learned id and a full scripted read whose reply is a
firmware version from device `i`, `get_firmware` returns the id and
version, writing the broadcast firmware query frame. -/
theorem get_firmware_step_ok (s : SDS011) (h : s.sensor_id = none)
    (r : Reply) (rest : List ReadResult)
    (hs : s.serial.script = .ok 10 r :: rest)
    (fw : FirmwareVersion) (i : Nat)
    (hr : Message.parse_reply r = .ok ⟨.FWVersion (some fw), some i⟩) :
    s.get_firmware =
      (.ok (i, fw), { s with serial := ⟨rest, s.serial.writes ++ [fwQueryFrame]⟩ }) := by
  unfold SDS011.get_firmware SDS011.send_message SDS011.get_reply
  rw [h]
  have hcq : Message.create_query (Message.new (.FWVersion none) none) =
      some fwQueryFrame := rfl
  rw [hcq]
  dsimp only []
  rw [hs]
  dsimp only []
  rw [if_pos rfl, hr]

/-- With a full scripted read whose reply decodes to a non-FWVersion
kind (with some device id), `get_firmware` fails with UnexpectedType. -/
theorem get_firmware_step_unexpected (s : SDS011) (h : s.sensor_id = none)
    (r : Reply) (rest : List ReadResult)
    (hs : s.serial.script = .ok 10 r :: rest)
    (k : Kind) (i : Nat)
    (hk : k.isFWVersion = false)
    (hr : Message.parse_reply r = .ok ⟨k, some i⟩) :
    s.get_firmware = (.error .UnexpectedType,
      { s with serial := ⟨rest, s.serial.writes ++ [fwQueryFrame]⟩ }) := by
  unfold SDS011.get_firmware SDS011.send_message SDS011.get_reply
  rw [h]
  have hcq : Message.create_query (Message.new (.FWVersion none) none) =
      some fwQueryFrame := rfl
  rw [hcq]
  dsimp only []
  rw [hs]
  dsimp only []
  rw [if_pos rfl, hr]
  cases k <;> simp_all [Kind.isFWVersion]

/-- With no learned id and a full scripted read whose reply confirms
Sleep mode, `sleep` succeeds, writing the broadcast sleep frame. -/
theorem sleep_step_ok (s : SDS011) (h : s.sensor_id = none)
    (r : Reply) (rest : List ReadResult)
    (hs : s.serial.script = .ok 10 r :: rest)
    (q : QueryMode) (sid : Option Nat)
    (hr : Message.parse_reply r = .ok ⟨.Sleep ⟨q, .Sleep⟩, sid⟩) :
    s.sleep = (.ok (), { s with serial := ⟨rest, s.serial.writes ++ [sleepFrame]⟩ }) := by
  unfold SDS011.sleep SDS011.send_message SDS011.get_reply
  rw [h]
  have hcq : Message.create_query (Message.new (.Sleep (Sleep.new_set .Sleep)) none) =
      some sleepFrame := rfl
  rw [hcq]
  dsimp only []
  rw [hs]
  dsimp only []
  rw [if_pos rfl, hr]
  rfl

/-- With a full scripted read whose reply is a Sleep confirming Work
mode, `sleep` fails with OperationFailed. -/
theorem sleep_step_opfail (s : SDS011) (h : s.sensor_id = none)
    (r : Reply) (rest : List ReadResult)
    (hs : s.serial.script = .ok 10 r :: rest)
    (q : QueryMode) (sid : Option Nat)
    (hr : Message.parse_reply r = .ok ⟨.Sleep ⟨q, .Work⟩, sid⟩) :
    s.sleep = (.error .OperationFailed,
      { s with serial := ⟨rest, s.serial.writes ++ [sleepFrame]⟩ }) := by
  unfold SDS011.sleep SDS011.send_message SDS011.get_reply
  rw [h]
  have hcq : Message.create_query (Message.new (.Sleep (Sleep.new_set .Sleep)) none) =
      some sleepFrame := rfl
  rw [hcq]
  dsimp only []
  rw [hs]
  dsimp only []
  rw [if_pos rfl, hr]
  rfl

/-- With a full scripted read whose reply decodes to a non-Sleep kind,
`sleep` fails with UnexpectedType. -/
theorem sleep_step_unexpected (s : SDS011) (h : s.sensor_id = none)
    (r : Reply) (rest : List ReadResult)
    (hs : s.serial.script = .ok 10 r :: rest)
    (k : Kind) (sid : Option Nat)
    (hk : k.isSleep = false)
    (hr : Message.parse_reply r = .ok ⟨k, sid⟩) :
    s.sleep = (.error .UnexpectedType,
      { s with serial := ⟨rest, s.serial.writes ++ [sleepFrame]⟩ }) := by
  unfold SDS011.sleep SDS011.send_message SDS011.get_reply
  rw [h]
  have hcq : Message.create_query (Message.new (.Sleep (Sleep.new_set .Sleep)) none) =
      some sleepFrame := rfl
  rw [hcq]
  dsimp only []
  rw [hs]
  dsimp only []
  rw [if_pos rfl, hr]
  cases k <;> simp_all [Kind.isSleep]

/-- C5: on a scripted transport, `init` performs exactly wake,
set-reporting-mode-query, firmware query and sleep, in that order.
With matching confirmations it succeeds and the returned Polling
driver carries the learned device id and firmware version; a
wrong-kind reply at any step fails with UnexpectedType, a wrong-mode
reply with OperationFailed, and in every failure case no later step's
frame is written. -/
theorem c5_init_exchange
    (q1 q2 q4 : QueryMode) (sid1 sid2 sid4 : Option Nat) (i : Nat)
    (r1 r2 r3 r4 : Reply) (fw : FirmwareVersion)
    (h1 : Message.parse_reply r1 = .ok ⟨.Sleep ⟨q1, .Work⟩, sid1⟩)
    (h2 : Message.parse_reply r2 = .ok ⟨.ReportingMode ⟨q2, .Query⟩, sid2⟩)
    (h3 : Message.parse_reply r3 = .ok ⟨.FWVersion (some fw), some i⟩)
    (h4 : Message.parse_reply r4 = .ok ⟨.Sleep ⟨q4, .Sleep⟩, sid4⟩) :
    ((SDS011.new ⟨[.ok 10 r1, .ok 10 r2, .ok 10 r3, .ok 10 r4], []⟩ 500 30000).init =
      (.ok { serial := ⟨[], [wakeFrame, setQueryFrame, fwQueryFrame, sleepFrame]⟩
             sleep_delay := 500, measure_delay := 30000
             sensor_id := some i, firmware := some fw },
       { serial := ⟨[], [wakeFrame, setQueryFrame, fwQueryFrame, sleepFrame]⟩
         sleep_delay := 500, measure_delay := 30000
         sensor_id := none, firmware := none })) ∧
    (∀ r k sid, Message.parse_reply r = .ok ⟨k, sid⟩ → k.isSleep = false →
      (SDS011.new ⟨[.ok 10 r, .ok 10 r2, .ok 10 r3, .ok 10 r4], []⟩ 500 30000).init =
        (.error .UnexpectedType,
         { serial := ⟨[.ok 10 r2, .ok 10 r3, .ok 10 r4], [wakeFrame]⟩
           sleep_delay := 500, measure_delay := 30000
           sensor_id := none, firmware := none })) ∧
    (∀ r q sid, Message.parse_reply r = .ok ⟨.Sleep ⟨q, .Sleep⟩, sid⟩ →
      (SDS011.new ⟨[.ok 10 r, .ok 10 r2, .ok 10 r3, .ok 10 r4], []⟩ 500 30000).init =
        (.error .OperationFailed,
         { serial := ⟨[.ok 10 r2, .ok 10 r3, .ok 10 r4], [wakeFrame]⟩
           sleep_delay := 500, measure_delay := 30000
           sensor_id := none, firmware := none })) ∧
    (∀ r k sid, Message.parse_reply r = .ok ⟨k, sid⟩ → k.isReportingMode = false →
      (SDS011.new ⟨[.ok 10 r1, .ok 10 r, .ok 10 r3, .ok 10 r4], []⟩ 500 30000).init =
        (.error .UnexpectedType,
         { serial := ⟨[.ok 10 r3, .ok 10 r4], [wakeFrame, setQueryFrame]⟩
           sleep_delay := 500, measure_delay := 30000
           sensor_id := none, firmware := none })) ∧
    (∀ r q sid, Message.parse_reply r = .ok ⟨.ReportingMode ⟨q, .Active⟩, sid⟩ →
      (SDS011.new ⟨[.ok 10 r1, .ok 10 r, .ok 10 r3, .ok 10 r4], []⟩ 500 30000).init =
        (.error .OperationFailed,
         { serial := ⟨[.ok 10 r3, .ok 10 r4], [wakeFrame, setQueryFrame]⟩
           sleep_delay := 500, measure_delay := 30000
           sensor_id := none, firmware := none })) ∧
    (∀ r k si, Message.parse_reply r = .ok ⟨k, some si⟩ → k.isFWVersion = false →
      (SDS011.new ⟨[.ok 10 r1, .ok 10 r2, .ok 10 r, .ok 10 r4], []⟩ 500 30000).init =
        (.error .UnexpectedType,
         { serial := ⟨[.ok 10 r4], [wakeFrame, setQueryFrame, fwQueryFrame]⟩
           sleep_delay := 500, measure_delay := 30000
           sensor_id := none, firmware := none })) ∧
    (∀ r k sid, Message.parse_reply r = .ok ⟨k, sid⟩ → k.isSleep = false →
      (SDS011.new ⟨[.ok 10 r1, .ok 10 r2, .ok 10 r3, .ok 10 r], []⟩ 500 30000).init =
        (.error .UnexpectedType,
         { serial := ⟨[], [wakeFrame, setQueryFrame, fwQueryFrame, sleepFrame]⟩
           sleep_delay := 500, measure_delay := 30000
           sensor_id := none, firmware := none })) ∧
    (∀ r q sid, Message.parse_reply r = .ok ⟨.Sleep ⟨q, .Work⟩, sid⟩ →
      (SDS011.new ⟨[.ok 10 r1, .ok 10 r2, .ok 10 r3, .ok 10 r], []⟩ 500 30000).init =
        (.error .OperationFailed,
         { serial := ⟨[], [wakeFrame, setQueryFrame, fwQueryFrame, sleepFrame]⟩
           sleep_delay := 500, measure_delay := 30000
           sensor_id := none, firmware := none })) := by
  refine ⟨?_, ?_, ?_, ?_, ?_, ?_, ?_, ?_⟩
  · unfold SDS011.init
    rw [wake_step_ok _ rfl _ _ rfl _ _ h1]
    dsimp only []
    rw [set_runmode_query_step_ok _ rfl _ _ rfl _ _ h2]
    dsimp only []
    rw [get_firmware_step_ok _ rfl _ _ rfl _ _ h3]
    dsimp only []
    rw [sleep_step_ok _ rfl _ _ rfl _ _ h4]
    simp [SDS011.new]
  · intro r k sid hr hk
    unfold SDS011.init
    rw [wake_step_unexpected _ rfl _ _ rfl _ _ hk hr]
    simp [SDS011.new]
  · intro r q sid hr
    unfold SDS011.init
    rw [wake_step_opfail _ rfl _ _ rfl _ _ hr]
    simp [SDS011.new]
  · intro r k sid hr hk
    unfold SDS011.init
    rw [wake_step_ok _ rfl _ _ rfl _ _ h1]
    dsimp only []
    rw [set_runmode_query_step_unexpected _ rfl _ _ rfl _ _ hk hr]
    simp [SDS011.new]
  · intro r q sid hr
    unfold SDS011.init
    rw [wake_step_ok _ rfl _ _ rfl _ _ h1]
    dsimp only []
    rw [set_runmode_query_step_opfail _ rfl _ _ rfl _ _ hr]
    simp [SDS011.new]
  · intro r k si hr hk
    unfold SDS011.init
    rw [wake_step_ok _ rfl _ _ rfl _ _ h1]
    dsimp only []
    rw [set_runmode_query_step_ok _ rfl _ _ rfl _ _ h2]
    dsimp only []
    rw [get_firmware_step_unexpected _ rfl _ _ rfl _ _ hk hr]
    simp [SDS011.new]
  · intro r k sid hr hk
    unfold SDS011.init
    rw [wake_step_ok _ rfl _ _ rfl _ _ h1]
    dsimp only []
    rw [set_runmode_query_step_ok _ rfl _ _ rfl _ _ h2]
    dsimp only []
    rw [get_firmware_step_ok _ rfl _ _ rfl _ _ h3]
    dsimp only []
    rw [sleep_step_unexpected _ rfl _ _ rfl _ _ hk hr]
    simp [SDS011.new]
  · intro r q sid hr
    unfold SDS011.init
    rw [wake_step_ok _ rfl _ _ rfl _ _ h1]
    dsimp only []
    rw [set_runmode_query_step_ok _ rfl _ _ rfl _ _ h2]
    dsimp only []
    rw [get_firmware_step_ok _ rfl _ _ rfl _ _ h3]
    dsimp only []
    rw [sleep_step_opfail _ rfl _ _ rfl _ _ hr]
    simp [SDS011.new]

/-- C5 witness: the init exchange applied to the concrete scripted
replies of device 0xA160 with firmware 2015-07-10. -/
theorem c5_init_exchange_witness :
    (SDS011.new ⟨initScriptOk, []⟩ 500 30000).init =
      (.ok { serial := ⟨[], [wakeFrame, setQueryFrame, fwQueryFrame, sleepFrame]⟩
             sleep_delay := 500, measure_delay := 30000
             sensor_id := some 0xA160, firmware := some ⟨15, 7, 10⟩ },
       { serial := ⟨[], [wakeFrame, setQueryFrame, fwQueryFrame, sleepFrame]⟩
         sleep_delay := 500, measure_delay := 30000
         sensor_id := none, firmware := none }) :=
  (c5_init_exchange .Set .Set .Set (some 0xA160) (some 0xA160) (some 0xA160) 0xA160
    wakeReply repQueryReply fwReply sleepReply ⟨15, 7, 10⟩ rfl rfl rfl rfl).1

/-- `get_reply` never changes the learned id or the written frames. -/
theorem get_reply_state (s : SDS011) :
    (s.get_reply).2.sensor_id = s.sensor_id ∧
      (s.get_reply).2.serial.writes = s.serial.writes := by
  unfold SDS011.get_reply
  rcases hs : s.serial.script with _ | ⟨r, rest⟩
  · exact ⟨rfl, rfl⟩
  · cases r with
    | err => exact ⟨rfl, rfl⟩
    | ok n buf =>
      dsimp only []
      by_cases hn : n = 10
      · rw [if_pos hn]
        cases hp : Message.parse_reply buf with
        | ok m => exact ⟨rfl, rfl⟩
        | error e => exact ⟨rfl, rfl⟩
      · rw [if_neg hn]; exact ⟨rfl, rfl⟩

/-- On a driver with no learned id, `wake` writes exactly the broadcast
wake frame and leaves the id unlearned, whatever the reply. -/
theorem wake_writes (s : SDS011) (h : s.sensor_id = none) :
    (s.wake).2.sensor_id = none ∧
      (s.wake).2.serial.writes = s.serial.writes ++ [wakeFrame] := by
  unfold SDS011.wake SDS011.send_message
  rw [h]
  have hcq : Message.create_query (Message.new (.Sleep (Sleep.new_set .Work)) none) =
      some wakeFrame := rfl
  rw [hcq]
  dsimp only []
  rcases hg : SDS011.get_reply
      { serial := { script := s.serial.script, writes := s.serial.writes ++ [wakeFrame] }
        sleep_delay := s.sleep_delay, measure_delay := s.measure_delay
        sensor_id := none, firmware := s.firmware } with ⟨res, s2⟩
  have hst := get_reply_state
      { serial := { script := s.serial.script, writes := s.serial.writes ++ [wakeFrame] }
        sleep_delay := s.sleep_delay, measure_delay := s.measure_delay
        sensor_id := none, firmware := s.firmware }
  rw [hg] at hst
  cases res with
  | error e => exact ⟨hst.1, hst.2⟩
  | ok m =>
    dsimp only []
    split <;> (try split) <;> exact ⟨hst.1, hst.2⟩

/-- On a driver with no learned id, `set_runmode_query` writes exactly
the broadcast set-reporting frame. -/
theorem set_runmode_query_writes (s : SDS011) (h : s.sensor_id = none) :
    (s.set_runmode_query).2.sensor_id = none ∧
      (s.set_runmode_query).2.serial.writes = s.serial.writes ++ [setQueryFrame] := by
  unfold SDS011.set_runmode_query SDS011.send_message
  rw [h]
  have hcq : Message.create_query
      (Message.new (.ReportingMode (Reporting.new_set .Query)) none) = some setQueryFrame := rfl
  rw [hcq]
  dsimp only []
  rcases hg : SDS011.get_reply
      { serial := { script := s.serial.script, writes := s.serial.writes ++ [setQueryFrame] }
        sleep_delay := s.sleep_delay, measure_delay := s.measure_delay
        sensor_id := none, firmware := s.firmware } with ⟨res, s2⟩
  have hst := get_reply_state
      { serial := { script := s.serial.script, writes := s.serial.writes ++ [setQueryFrame] }
        sleep_delay := s.sleep_delay, measure_delay := s.measure_delay
        sensor_id := none, firmware := s.firmware }
  rw [hg] at hst
  cases res with
  | error e => exact ⟨hst.1, hst.2⟩
  | ok m =>
    dsimp only []
    split <;> (try split) <;> exact ⟨hst.1, hst.2⟩

/-- On a driver with no learned id, `get_firmware` writes exactly the
broadcast firmware query frame and does not itself set the id. -/
theorem get_firmware_writes (s : SDS011) (h : s.sensor_id = none) :
    (s.get_firmware).2.sensor_id = none ∧
      (s.get_firmware).2.serial.writes = s.serial.writes ++ [fwQueryFrame] := by
  unfold SDS011.get_firmware SDS011.send_message
  rw [h]
  have hcq : Message.create_query (Message.new (.FWVersion none) none) =
      some fwQueryFrame := rfl
  rw [hcq]
  dsimp only []
  rcases hg : SDS011.get_reply
      { serial := { script := s.serial.script, writes := s.serial.writes ++ [fwQueryFrame] }
        sleep_delay := s.sleep_delay, measure_delay := s.measure_delay
        sensor_id := none, firmware := s.firmware } with ⟨res, s2⟩
  have hst := get_reply_state
      { serial := { script := s.serial.script, writes := s.serial.writes ++ [fwQueryFrame] }
        sleep_delay := s.sleep_delay, measure_delay := s.measure_delay
        sensor_id := none, firmware := s.firmware }
  rw [hg] at hst
  cases res with
  | error e => exact ⟨hst.1, hst.2⟩
  | ok m =>
    dsimp only []
    split <;> (try split) <;> (try split) <;> exact ⟨hst.1, hst.2⟩

/-- On a driver with no learned id, `sleep` writes exactly the
broadcast sleep frame. -/
theorem sleep_writes (s : SDS011) (h : s.sensor_id = none) :
    (s.sleep).2.sensor_id = none ∧
      (s.sleep).2.serial.writes = s.serial.writes ++ [sleepFrame] := by
  unfold SDS011.sleep SDS011.send_message
  rw [h]
  have hcq : Message.create_query (Message.new (.Sleep (Sleep.new_set .Sleep)) none) =
      some sleepFrame := rfl
  rw [hcq]
  dsimp only []
  rcases hg : SDS011.get_reply
      { serial := { script := s.serial.script, writes := s.serial.writes ++ [sleepFrame] }
        sleep_delay := s.sleep_delay, measure_delay := s.measure_delay
        sensor_id := none, firmware := s.firmware } with ⟨res, s2⟩
  have hst := get_reply_state
      { serial := { script := s.serial.script, writes := s.serial.writes ++ [sleepFrame] }
        sleep_delay := s.sleep_delay, measure_delay := s.measure_delay
        sensor_id := none, firmware := s.firmware }
  rw [hg] at hst
  cases res with
  | error e => exact ⟨hst.1, hst.2⟩
  | ok m =>
    dsimp only []
    split <;> (try split) <;> exact ⟨hst.1, hst.2⟩

/-- Starting from a driver with no learned id and only broadcast frames
written, every frame `init` writes is broadcast, however the scripted
replies turn out. -/
theorem init_writes_broadcast (s : SDS011) (h : s.sensor_id = none)
    (hw : ∀ f ∈ s.serial.writes, isBroadcast f) :
    ∀ f ∈ (s.init).2.serial.writes, isBroadcast f := by
  have hbW : isBroadcast wakeFrame := ⟨rfl, rfl⟩
  have hbQ : isBroadcast setQueryFrame := ⟨rfl, rfl⟩
  have hbF : isBroadcast fwQueryFrame := ⟨rfl, rfl⟩
  have hbS : isBroadcast sleepFrame := ⟨rfl, rfl⟩
  unfold SDS011.init
  rcases hg1 : s.wake with ⟨res1, s1⟩
  have h1 := wake_writes s h
  rw [hg1] at h1
  have hw1 : ∀ f ∈ s1.serial.writes, isBroadcast f := by
    rw [h1.2]
    intro f hf
    rcases List.mem_append.mp hf with hf | hf
    · exact hw f hf
    · rw [List.mem_singleton.mp hf]; exact hbW
  cases res1 with
  | error e => exact hw1
  | ok u1 =>
    dsimp only []
    rcases hg2 : s1.set_runmode_query with ⟨res2, s2⟩
    have h2 := set_runmode_query_writes s1 h1.1
    rw [hg2] at h2
    have hw2 : ∀ f ∈ s2.serial.writes, isBroadcast f := by
      rw [h2.2]
      intro f hf
      rcases List.mem_append.mp hf with hf | hf
      · exact hw1 f hf
      · rw [List.mem_singleton.mp hf]; exact hbQ
    cases res2 with
    | error e => exact hw2
    | ok u2 =>
      dsimp only []
      rcases hg3 : s2.get_firmware with ⟨res3, s3⟩
      have h3 := get_firmware_writes s2 h2.1
      rw [hg3] at h3
      have hw3 : ∀ f ∈ s3.serial.writes, isBroadcast f := by
        rw [h3.2]
        intro f hf
        rcases List.mem_append.mp hf with hf | hf
        · exact hw2 f hf
        · rw [List.mem_singleton.mp hf]; exact hbF
      cases res3 with
      | error e => exact hw3
      | ok u3 =>
        dsimp only []
        obtain ⟨i, fw⟩ := u3
        rcases hg4 : s3.sleep with ⟨res4, s4⟩
        have h4 := sleep_writes s3 h3.1
        rw [hg4] at h4
        have hw4 : ∀ f ∈ s4.serial.writes, isBroadcast f := by
          rw [h4.2]
          intro f hf
          rcases List.mem_append.mp hf with hf | hf
          · exact hw3 f hf
          · rw [List.mem_singleton.mp hf]; exact hbS
        cases res4 with
        | error e => exact hw4
        | ok u4 => exact hw4

/-- C7 counterexample: after a successful `init` (which learns device
id 0xA160), the very next frame written by a public operation (the
wake frame of the Polling `measure`) carries the learned id bytes
0xA1 0x60 in bytes 15..17, not the broadcast id 0xFF 0xFF. -/
theorem c7_broadcast_only_counterexample :
    ((SDS011.new ⟨initScriptOk, []⟩ 500 30000).init.1.map
        (fun d => d.measure.2.serial.writes.map (fun f => (f.b15, f.b16)))) =
      .ok [(0xFF, 0xFF), (0xFF, 0xFF), (0xFF, 0xFF), (0xFF, 0xFF), (0xA1, 0x60)] ∧
      ((0xA1, 0x60) : Nat × Nat) ≠ (0xFF, 0xFF) :=
  ⟨rfl, by decide⟩

/-- C7 amended: every query frame carries the driver's current
sensor_id as target in bytes 15..17 (the broadcast id 0xFFFF exactly
when no id is set); since `init` runs with no learned id, every frame
it writes is broadcast, but operations after `init` address the
learned device id, so the driver is not broadcast-only once an id has
been learned. -/
theorem c7_target_id_frames :
    (∀ (k : Kind) (sid : Option Nat) (f : QueryBuf),
        Message.create_query (Message.new k sid) = some f →
        (sid = none → isBroadcast f) ∧
        (∀ id, sid = some id → f.b15 = id / 256 % 256 ∧ f.b16 = id % 256)) ∧
    (∀ s : SDS011, s.sensor_id = none →
        (∀ f ∈ s.serial.writes, isBroadcast f) →
        ∀ f ∈ (s.init).2.serial.writes, isBroadcast f) := by
  refine ⟨?_, init_writes_broadcast⟩
  intro k sid f h
  cases k with
  | SetDeviceID d =>
    by_cases hff : d.id / 256 % 256 = 0xFF ∨ d.id % 256 = 0xFF
    · exfalso
      have hnone : Message.create_query (Message.new (Kind.SetDeviceID d) sid) = none := by
        cases sid <;>
          simp [Message.new, Message.create_query, Kind.populate_query,
            NewDeviceID.populate_query, hff]
      rw [hnone] at h
      exact absurd h (by simp)
    · cases sid with
      | none =>
        simp only [Message.new, Message.create_query, Kind.populate_query,
          NewDeviceID.populate_query, if_neg hff, Option.some.injEq] at h
        subst h
        exact ⟨fun _ => ⟨rfl, rfl⟩, fun id hid => (nomatch hid)⟩
      | some j =>
        simp only [Message.new, Message.create_query, Kind.populate_query,
          NewDeviceID.populate_query, if_neg hff, Option.some.injEq] at h
        subst h
        refine ⟨(fun hn => nomatch hn), fun id hid => ?_⟩
        injection hid with e
        subst e
        exact ⟨rfl, rfl⟩
  | ReportingMode r =>
    cases sid with
    | none =>
      injection h with hX; subst hX
      exact ⟨fun _ => ⟨rfl, rfl⟩, fun id hid => (nomatch hid)⟩
    | some j =>
      injection h with hX; subst hX
      refine ⟨(fun hn => nomatch hn), fun id hid => ?_⟩
      injection hid with e; subst e; exact ⟨rfl, rfl⟩
  | Query o =>
    cases sid with
    | none =>
      injection h with hX; subst hX
      exact ⟨fun _ => ⟨rfl, rfl⟩, fun id hid => (nomatch hid)⟩
    | some j =>
      injection h with hX; subst hX
      refine ⟨(fun hn => nomatch hn), fun id hid => ?_⟩
      injection hid with e; subst e; exact ⟨rfl, rfl⟩
  | Sleep sl =>
    cases sid with
    | none =>
      injection h with hX; subst hX
      exact ⟨fun _ => ⟨rfl, rfl⟩, fun id hid => (nomatch hid)⟩
    | some j =>
      injection h with hX; subst hX
      refine ⟨(fun hn => nomatch hn), fun id hid => ?_⟩
      injection hid with e; subst e; exact ⟨rfl, rfl⟩
  | WorkingPeriod w =>
    cases sid with
    | none =>
      injection h with hX; subst hX
      exact ⟨fun _ => ⟨rfl, rfl⟩, fun id hid => (nomatch hid)⟩
    | some j =>
      injection h with hX; subst hX
      refine ⟨(fun hn => nomatch hn), fun id hid => ?_⟩
      injection hid with e; subst e; exact ⟨rfl, rfl⟩
  | FWVersion fv =>
    cases sid with
    | none =>
      injection h with hX; subst hX
      exact ⟨fun _ => ⟨rfl, rfl⟩, fun id hid => (nomatch hid)⟩
    | some j =>
      injection h with hX; subst hX
      refine ⟨(fun hn => nomatch hn), fun id hid => ?_⟩
      injection hid with e; subst e; exact ⟨rfl, rfl⟩

/-- C7 witness: the target bytes of the wake frame addressed to the
learned device id 0xA160. -/
theorem c7_target_id_frames_witness :
    QueryBuf.b15 ⟨0xAA, 0xB4, 6, 1, 1, 0, 0, 0, 0, 0, 0, 0, 0, 0, 0, 0xA1, 0x60, 9, 0xAB⟩ =
        0xA160 / 256 % 256 ∧
      QueryBuf.b16 ⟨0xAA, 0xB4, 6, 1, 1, 0, 0, 0, 0, 0, 0, 0, 0, 0, 0, 0xA1, 0x60, 9, 0xAB⟩ =
        0xA160 % 256 :=
  (c7_target_id_frames.1 (.Sleep (Sleep.new_set .Work)) (some 0xA160)
      ⟨0xAA, 0xB4, 6, 1, 1, 0, 0, 0, 0, 0, 0, 0, 0, 0, 0, 0xA1, 0x60, 9, 0xAB⟩ rfl).2
    0xA160 rfl

end SDS011Spec
